import Mathlib

/-!
# wh2600-idokep: weather-station poller

A shallow embedding of `src/main.go` and the properties of its pipeline
(fetch, parse by row position, format the query string, upload, sleep).

Library code the program calls is modelled as follows.

* `golang.org/x/net/html` nodes are the inductive type `Node`; the goquery
  `Find` is the pre-order search for descendant elements with a tag name,
  `AttrOr` reads an attribute of the first node of a selection.
* `float64` is `Float64`: a signed dyadic number, an infinity or NaN.
* `strconv.ParseFloat(s, 64)` is a parameter `ParseFloat` of the
  definitions: the theorems hold for every behaviour of that function.
* `fmt.Sprintf` with the verbs `%s`, `%d` and `%.Nf` is modelled below.
* `strconv.Atoi` is modelled for a platform whose `int` has 64 bits.
-/

namespace Wh2600

/-! ## HTML documents and goquery selections -/

/-- An `html.Node`: the document root, an element with its (lower-case) tag
name, attributes and children, or a leaf (text, comment, doctype). -/
inductive Node where
  | document (children : List Node)
  | element (tag : String) (attrs : List (String × String)) (children : List Node)
  | leaf (data : String)

mutual
/-- The cascadia `MatchAll` of a tag selector: the node itself when it is an
element with that tag, then the matches below it, in document order. -/
def matchAll (tag : String) : Node → List Node
  | .document cs => matchAllList tag cs
  | .element t as cs =>
      if t = tag then Node.element t as cs :: matchAllList tag cs else matchAllList tag cs
  | .leaf _ => []
/-- The `MatchAll` of each node of a list of siblings, concatenated. -/
def matchAllList (tag : String) : List Node → List Node
  | [] => []
  | c :: cs => matchAll tag c ++ matchAllList tag cs
end

/-- The children of a node (`FirstChild`, `NextSibling`, ...). -/
def Node.children : Node → List Node
  | .document cs => cs
  | .element _ _ cs => cs
  | .leaf _ => []

/-- The goquery `Find` of a tag selector on a selection of one node: the
descendant elements with that tag, in document order; the node itself is not
among them. -/
def find (tag : String) (n : Node) : List Node :=
  matchAllList tag n.children

/-- The value of the first attribute with the given key. -/
def getAttributeValue (key : String) : List (String × String) → Option String
  | [] => none
  | (k, v) :: rest => if k = key then some v else getAttributeValue key rest

/-- The attributes of a node; only elements have any. -/
def Node.attrs : Node → List (String × String)
  | .element _ as _ => as
  | _ => []

/-- The goquery `AttrOr`: the attribute of the first node of the selection, or
the default when the selection is empty or the attribute is missing. -/
def attrOr (sel : List Node) (key : String) (dflt : String) : String :=
  match sel with
  | [] => dflt
  | n :: _ => (getAttributeValue key n.attrs).getD dflt

/-! ## float64 -/

/-- A `float64` value: `finite neg m e` is `(-1)^neg * m * 2^e`. -/
inductive Float64 where
  | finite (neg : Bool) (mant : Nat) (exp : Int)
  | inf (neg : Bool)
  | nan
  deriving DecidableEq

/-- The constant `0` of type `float64`. -/
def Float64.zero : Float64 := .finite false 0 0

/-- A float64 that is neither an infinity nor NaN. -/
def Float64.isFinite : Float64 → Bool
  | .finite _ _ _ => true
  | _ => false

/-! ## The record of readings -/

/-- The struct `WeatherData`. -/
structure WeatherData where
  ReceiverTime : String
  ReceiverTimestamp : Int
  TemperatureIndoor : Float64
  HumidityIndoor : Float64
  PressureAbsolute : Float64
  PressureRelative : Float64
  Temperature : Float64
  Humidity : Float64
  DewPoint : Float64
  WindDir : Float64
  WindDirCardinal : String
  WindSpeed : Float64
  WindGust : Float64
  WindChill : Float64
  SolarRadiation : Float64
  Uv : Float64
  Uvi : Float64
  PrecipHourlyRate : Float64
  PrecipDaily : Float64
  PrecipWeekly : Float64
  PrecipMonthly : Float64
  PrecipYearly : Float64
  HeatIndex : Float64
  deriving DecidableEq

/-- The zero value of `WeatherData`, as declared by `var weatherData WeatherData`. -/
def WeatherData.zero : WeatherData :=
  { ReceiverTime := "", ReceiverTimestamp := 0,
    TemperatureIndoor := .zero, HumidityIndoor := .zero,
    PressureAbsolute := .zero, PressureRelative := .zero,
    Temperature := .zero, Humidity := .zero, DewPoint := .zero,
    WindDir := .zero, WindDirCardinal := "", WindSpeed := .zero,
    WindGust := .zero, WindChill := .zero, SolarRadiation := .zero,
    Uv := .zero, Uvi := .zero, PrecipHourlyRate := .zero,
    PrecipDaily := .zero, PrecipWeekly := .zero, PrecipMonthly := .zero,
    PrecipYearly := .zero, HeatIndex := .zero }

/-! ## parseFloat and parseHtml -/

/-- The result pair `(f, err)` of `strconv.ParseFloat`: `err = none` is `nil`. -/
abbrev ParseFloatFn := String → Float64 × Option String

/-- The function `parseFloat`: zero when the conversion reports an error. -/
def parseFloat (ParseFloat : ParseFloatFn) (s : String) : Float64 :=
  match ParseFloat s with
  | (_, some _) => Float64.zero
  | (f, none) => f

/-- The value read from a row: `s.Find("input").AttrOr("value", "")`. -/
def rowValue (s : Node) : String :=
  attrOr (find "input" s) "value" ""

/-- The body of the inner closure of `parseHtml`, at row index `i`. -/
def parseRow (ParseFloat : ParseFloatFn) (weatherData : WeatherData) (i : Nat) (s : Node) :
    WeatherData :=
  let value := rowValue s
  match i with
  | 8 => { weatherData with ReceiverTime := value }
  | 12 => { weatherData with TemperatureIndoor := parseFloat ParseFloat value }
  | 13 => { weatherData with HumidityIndoor := parseFloat ParseFloat value }
  | 14 => { weatherData with PressureAbsolute := parseFloat ParseFloat value }
  | 15 => { weatherData with PressureRelative := parseFloat ParseFloat value }
  | 16 => { weatherData with Temperature := parseFloat ParseFloat value }
  | 17 => { weatherData with Humidity := parseFloat ParseFloat value }
  | 18 => { weatherData with WindDir := parseFloat ParseFloat value }
  | 19 => { weatherData with WindSpeed := parseFloat ParseFloat value }
  | 20 => { weatherData with WindGust := parseFloat ParseFloat value }
  | 21 => { weatherData with SolarRadiation := parseFloat ParseFloat value }
  | 22 => { weatherData with Uv := parseFloat ParseFloat value }
  | 23 => { weatherData with Uvi := parseFloat ParseFloat value }
  | 24 => { weatherData with PrecipHourlyRate := parseFloat ParseFloat value }
  | 25 => { weatherData with PrecipDaily := parseFloat ParseFloat value }
  | 26 => { weatherData with PrecipWeekly := parseFloat ParseFloat value }
  | 27 => { weatherData with PrecipMonthly := parseFloat ParseFloat value }
  | 28 => { weatherData with PrecipYearly := parseFloat ParseFloat value }
  | _ => weatherData

/-- The goquery `Each` over the rows of one table: the closure runs on every
row with its index, starting from index `i`. -/
def eachRow (ParseFloat : ParseFloatFn) : List Node → Nat → WeatherData → WeatherData
  | [], _, weatherData => weatherData
  | s :: rest, i, weatherData => eachRow ParseFloat rest (i + 1) (parseRow ParseFloat weatherData i s)

/-- The body of the outer closure of `parseHtml`, for one table. -/
def parseTable (ParseFloat : ParseFloatFn) (weatherData : WeatherData) (s : Node) : WeatherData :=
  eachRow ParseFloat (find "tr" s) 0 weatherData

/-- The function `parseHtml`. -/
def parseHtml (ParseFloat : ParseFloatFn) (doc : Node) : WeatherData :=
  (find "table" doc).foldl (parseTable ParseFloat) WeatherData.zero

/-! ## fmt.Sprintf -/

/-- The verb `%d` on an integer: an optional minus sign and the decimal digits. -/
def sprintfD (i : Int) : String :=
  if i < 0 then "-" ++ Nat.repr i.natAbs else Nat.repr i.natAbs

/-- The quotient `num / den` rounded to the nearest integer, ties to even. -/
def roundHalfEven (num den : Nat) : Nat :=
  let q := num / den
  let r := num % den
  if den < 2 * r ∨ (2 * r = den ∧ q % 2 = 1) then q + 1 else q

/-- The integer nearest to `m * 2^e * 10^prec`, ties to even: the digits that
`strconv` keeps when it rounds the exact decimal expansion to `prec` places. -/
def scaledRound (prec m : Nat) : Int → Nat
  | Int.ofNat k => m * 2 ^ k * 10 ^ prec
  | Int.negSucc k => roundHalfEven (m * 10 ^ prec) (2 ^ (k + 1))

/-- The last `prec` decimal digits of `n`, padded with zeros on the left. -/
def fracDigits : Nat → Nat → List Char
  | 0, _ => []
  | prec + 1, n => fracDigits prec (n / 10) ++ [Nat.digitChar (n % 10)]

/-- The verb `%.Nf` with `N = prec` on a float64. -/
def sprintfFixed (prec : Nat) : Float64 → String
  | .nan => "NaN"
  | .inf false => "+Inf"
  | .inf true => "-Inf"
  | .finite neg m e =>
      let n := scaledRound prec m e
      (if neg then "-" else "") ++ Nat.repr (n / 10 ^ prec) ++
        (if prec = 0 then "" else "." ++ String.mk (fracDigits prec (n % 10 ^ prec)))

/-! ## The process environment and the clock -/

/-- The environment of the process: a variable is set to a string or missing. -/
abbrev Env := String → Option String

/-- The function `os.Getenv`: the empty string for a missing variable. -/
def Getenv (env : Env) (key : String) : String :=
  (env key).getD ""

/-- What the accessors `Year`, `Month`, `Day`, `Hour`, `Minute` and `Second`
return on the `time.Time` read from the clock. -/
structure Time where
  Year : Int
  Month : Int
  Day : Int
  Hour : Int
  Minute : Int
  Second : Int
  deriving DecidableEq

/-! ## constructUrl -/

/-- The slice `urlVars` of `constructUrl`. -/
def urlVars (env : Env) (currentTime : Time) (data : WeatherData) : List String :=
  [ "user=" ++ Getenv env "USERNAME",
    "pass=" ++ Getenv env "PASSWORD",
    "ev=" ++ sprintfD currentTime.Year,
    "ho=" ++ sprintfD currentTime.Month,
    "nap=" ++ sprintfD currentTime.Day,
    "ora=" ++ sprintfD currentTime.Hour,
    "perc=" ++ sprintfD currentTime.Minute,
    "mp=" ++ sprintfD currentTime.Second,
    "hom=" ++ sprintfFixed 1 data.Temperature,
    "rh=" ++ sprintfFixed 0 data.Humidity,
    "szelirany=" ++ sprintfFixed 0 data.WindDir,
    "szelero=" ++ sprintfFixed 1 data.WindSpeed,
    "szellokes=" ++ sprintfFixed 1 data.WindGust,
    "p=" ++ sprintfFixed 1 data.PressureRelative,
    "csap=" ++ sprintfFixed 2 data.PrecipDaily,
    "csap1h=" ++ sprintfFixed 2 data.PrecipHourlyRate,
    "tipus=WH2600" ]

/-- The function `constructUrl`; the environment and the clock are arguments. -/
def constructUrl (env : Env) (currentTime : Time) (data : WeatherData) : String :=
  "&".intercalate (urlVars env currentTime data)

/-! ## strconv.Atoi -/

/-- The function `strconv.Atoi` where `int` has 64 bits: an optional sign, then
one or more ASCII digits, and the value must fit; `none` is an error. -/
def Atoi (s : String) : Option Int :=
  let digits : List Char :=
    match s.data with
    | '-' :: rest => rest
    | '+' :: rest => rest
    | cs => cs
  if digits = [] then none
  else if digits.all Char.isDigit then
    let n : Nat := digits.foldl (fun acc c => acc * 10 + (c.toNat - 48)) 0
    let v : Int := if s.data.head? = some '-' then -(n : Int) else (n : Int)
    if -(2 : Int) ^ 63 ≤ v ∧ v < (2 : Int) ^ 63 then some v else none
  else none

/-! ## The effects of the program -/

/-- A line written by `log.Printf`. -/
inductive LogLine where
  | failedToConnect (err : String)
  | failedToFetch (err : String)
  | failedToProcess (err : String)
  | fetched
  | dump (data : WeatherData)
  | errorPosting (err : String)
  | success (status : String)
  deriving DecidableEq

/-- An effect of the process, in the order in which it happens: a call of
`http.Get`, `http.Post`, `log.Printf` or `time.Sleep` (with its argument in
nanoseconds), or `log.Fatalf`, which writes the message and ends the process
with exit status 1. -/
inductive Event where
  | httpGet (url : String)
  | httpPost (url : String) (contentType : String)
  | log (line : LogLine)
  | sleep (nanoseconds : Int)
  | fatal (msg : String)
  deriving DecidableEq

/-- What the station answers to one `http.Get`, up to the parsed document. -/
inductive GetOutcome where
  | connectError (err : String)
  | readError (err : String)
  | parseError (err : String)
  | document (doc : Node)

/-- What the remote service answers to one `http.Post`. -/
inductive PostOutcome where
  | error (err : String)
  | response (status : String)

/-- The inputs of one pass of the loop of `main`. -/
structure Cycle where
  get : GetOutcome
  now : Time
  post : PostOutcome

/-- The package variables `pwsIp`, `fetchInterval` and `debugEnabled`. -/
structure Globals where
  pwsIp : String
  fetchInterval : Int
  debugEnabled : Bool
  deriving DecidableEq

/-- The function `fetchDocumentFromPws`: its events and the document or `nil`. -/
def fetchDocumentFromPws (g : Globals) (get : GetOutcome) : List Event × Option Node :=
  let pwsUrl := "http://" ++ g.pwsIp ++ "/livedata.htm"
  match get with
  | .connectError err => ([.httpGet pwsUrl, .log (.failedToConnect err)], none)
  | .readError err => ([.httpGet pwsUrl, .log (.failedToFetch err)], none)
  | .parseError err => ([.httpGet pwsUrl, .log (.failedToProcess err)], none)
  | .document doc =>
      (.httpGet pwsUrl :: (if g.debugEnabled then [.log .fetched] else []), some doc)

/-- The function `sendToidokep`: its events and the error or `nil`. -/
def sendToidokep (g : Globals) (env : Env) (now : Time) (post : PostOutcome)
    (data : WeatherData) : List Event × Option String :=
  let url := "https://pro.idokep.hu/sendws.php?" ++ constructUrl env now data
  match post with
  | .error err => ([.httpPost url "application/json", .log (.errorPosting err)], some err)
  | .response status =>
      (.httpPost url "application/json" ::
        (if g.debugEnabled then [.log (.success status)] else []), none)

/-- The int64 value of an integer result after wrap-around: the product of two
int64 values is computed modulo `2^64`. -/
def wrapInt64 (x : Int) : Int :=
  (x + 2 ^ 63) % 2 ^ 64 - 2 ^ 63

/-- The constant `time.Second`, in nanoseconds. -/
def Second : Int := 1000000000

/-- The start of `main`, up to the loop: the globals, or the message of the
`log.Fatalf` that ends the process with status 1. -/
def startup (env : Env) : Except String Globals :=
  let debugEnabled := Getenv env "DEBUG_ENABLED" != ""
  let pwsIp := Getenv env "PWS_IP"
  if pwsIp = "" then .error "PWS_IP env var undefined"
  else
    let fetchIntervalStr := Getenv env "FETCH_INTERVAL"
    if fetchIntervalStr = "" then .error "FETCH_INTERVAL env var undefined"
    else
      match Atoi fetchIntervalStr with
      | none => .error ("Invalid FETCH_INTERVAL value: " ++ fetchIntervalStr ++ "\n")
      | some fetchInterval =>
          .ok { pwsIp := pwsIp, fetchInterval := fetchInterval, debugEnabled := debugEnabled }

/-- One pass of the loop of `main`. -/
def iteration (ParseFloat : ParseFloatFn) (g : Globals) (env : Env) (c : Cycle) : List Event :=
  let fetched := fetchDocumentFromPws g c.get
  let body : List Event :=
    match fetched.2 with
    | none => []
    | some doc =>
        let weatherData := parseHtml ParseFloat doc
        (if g.debugEnabled then [Event.log (.dump weatherData)] else []) ++
          (sendToidokep g env c.now c.post weatherData).1
  fetched.1 ++ body ++ [Event.sleep (wrapInt64 (g.fetchInterval * Second))]

/-- The loop of `main` on the inputs of its first passes. -/
def loop (ParseFloat : ParseFloatFn) (g : Globals) (env : Env) : List Cycle → List Event
  | [] => []
  | c :: rest => iteration ParseFloat g env c ++ loop ParseFloat g env rest

/-- The function `main`: the events of the process up to the end of the passes
whose inputs are given, or the fatal exit. -/
def main (ParseFloat : ParseFloatFn) (env : Env) (cycles : List Cycle) : List Event :=
  match startup env with
  | .error msg => [Event.fatal msg]
  | .ok g => loop ParseFloat g env cycles

/-! ## Definitions of the specification -/

/-- The new value of a field after a table: read from the row when the table
has one at the index of the field, the old value otherwise. -/
def fieldFrom {α : Type} (old : α) (read : String → α) : Option Node → α
  | none => old
  | some s => read (rowValue s)

/-- The mapping table of the specification: the reading `w` with each mapped
field taken from the row that `row` gives at the index of the field (8 for the
timestamp, 12 to 28 for the numbers), and every other field unchanged. -/
def applyRows (ParseFloat : ParseFloatFn) (w : WeatherData) (row : Nat → Option Node) :
    WeatherData :=
  { w with
    ReceiverTime := fieldFrom w.ReceiverTime id (row 8)
    TemperatureIndoor := fieldFrom w.TemperatureIndoor (parseFloat ParseFloat) (row 12)
    HumidityIndoor := fieldFrom w.HumidityIndoor (parseFloat ParseFloat) (row 13)
    PressureAbsolute := fieldFrom w.PressureAbsolute (parseFloat ParseFloat) (row 14)
    PressureRelative := fieldFrom w.PressureRelative (parseFloat ParseFloat) (row 15)
    Temperature := fieldFrom w.Temperature (parseFloat ParseFloat) (row 16)
    Humidity := fieldFrom w.Humidity (parseFloat ParseFloat) (row 17)
    WindDir := fieldFrom w.WindDir (parseFloat ParseFloat) (row 18)
    WindSpeed := fieldFrom w.WindSpeed (parseFloat ParseFloat) (row 19)
    WindGust := fieldFrom w.WindGust (parseFloat ParseFloat) (row 20)
    SolarRadiation := fieldFrom w.SolarRadiation (parseFloat ParseFloat) (row 21)
    Uv := fieldFrom w.Uv (parseFloat ParseFloat) (row 22)
    Uvi := fieldFrom w.Uvi (parseFloat ParseFloat) (row 23)
    PrecipHourlyRate := fieldFrom w.PrecipHourlyRate (parseFloat ParseFloat) (row 24)
    PrecipDaily := fieldFrom w.PrecipDaily (parseFloat ParseFloat) (row 25)
    PrecipWeekly := fieldFrom w.PrecipWeekly (parseFloat ParseFloat) (row 26)
    PrecipMonthly := fieldFrom w.PrecipMonthly (parseFloat ParseFloat) (row 27)
    PrecipYearly := fieldFrom w.PrecipYearly (parseFloat ParseFloat) (row 28) }

/-- The row at index `k` of the last table that has a row at that index; a
table is given by the list of its rows. -/
def lastRowAt (tables : List (List Node)) (k : Nat) : Option Node :=
  (tables.filterMap (fun rows => rows[k]?)).getLast?

/-- The numeric field that the specification maps to row index `k`. -/
def numericField (k : Nat) (w : WeatherData) : Option Float64 :=
  match k with
  | 12 => some w.TemperatureIndoor
  | 13 => some w.HumidityIndoor
  | 14 => some w.PressureAbsolute
  | 15 => some w.PressureRelative
  | 16 => some w.Temperature
  | 17 => some w.Humidity
  | 18 => some w.WindDir
  | 19 => some w.WindSpeed
  | 20 => some w.WindGust
  | 21 => some w.SolarRadiation
  | 22 => some w.Uv
  | 23 => some w.Uvi
  | 24 => some w.PrecipHourlyRate
  | 25 => some w.PrecipDaily
  | 26 => some w.PrecipWeekly
  | 27 => some w.PrecipMonthly
  | 28 => some w.PrecipYearly
  | _ => none

/-- Whether a string is a decimal numeral with exactly `prec` digits after the
decimal point: an optional minus sign, one or more digits, and then nothing
more when `prec = 0`, a point and exactly `prec` digits otherwise. -/
def fixedDecimals (prec : Nat) (s : String) : Bool :=
  let cs : List Char :=
    match s.data with
    | '-' :: rest => rest
    | cs => cs
  let rest := cs.dropWhile Char.isDigit
  !(cs.takeWhile Char.isDigit).isEmpty &&
    (if prec = 0 then rest.isEmpty
     else
      match rest with
      | '.' :: fp => fp.length == prec && fp.all Char.isDigit
      | _ => false)

/-- An upload: a call of `http.Post`. -/
def Event.isPost : Event → Bool
  | .httpPost _ _ => true
  | _ => false

/-- A call of `time.Sleep`. -/
def Event.isSleep : Event → Bool
  | .sleep _ => true
  | _ => false

/-- A fetch: a call of `http.Get`. -/
def Event.isGet : Event → Bool
  | .httpGet _ => true
  | _ => false

/-- A call of `http.Get` or `http.Post`. -/
def Event.isNetwork : Event → Bool
  | .httpGet _ => true
  | .httpPost _ _ => true
  | _ => false

/-! ## Data of the examples -/

/-- The results of `strconv.ParseFloat` on the strings of the examples: `21.5`
and `60` are numbers, `NaN` is accepted as the value NaN, and `abc` and the
empty string are syntax errors, like every string the examples do not use. -/
def scenarioParseFloat : ParseFloatFn := fun s =>
  if s = "21.5" then (.finite false 43 (-1), none)
  else if s = "60" then (.finite false 60 0, none)
  else if s = "NaN" then (.nan, none)
  else (Float64.zero, some "invalid syntax")

/-- A table row of the station page with a label and an input of value `v`. -/
def inputRow (v : String) : Node :=
  .element "tr" []
    [ .element "td" [] [.leaf "label"],
      .element "td" [] [.element "input" [("name", "field"), ("value", v)] []] ]

/-- A table row whose input has no value attribute. -/
def noValueRow : Node :=
  .element "tr" []
    [ .element "td" [] [.leaf "label"],
      .element "td" [] [.element "input" [("name", "field")] []] ]

/-- A table row without an input. -/
def labelRow : Node :=
  .element "tr" [] [.element "td" [] [.leaf "label"]]

/-- A table with the given rows. -/
def tableOf (rows : List Node) : Node :=
  .element "table" [] [.element "tbody" [] rows]

/-- A page with the given tables. -/
def pageOf (tables : List Node) : Node :=
  .document [.element "html" [] [.element "head" [] [], .element "body" [] tables]]

/-- The rows of scenario 1: row 16 has value `21.5`, row 17 has value `60`. -/
def scenario1Rows : List Node :=
  List.replicate 16 labelRow ++ [inputRow "21.5", inputRow "60"] ++ List.replicate 11 labelRow

/-- The rows of scenario 2: like scenario 1, and row 19 has value `abc`. -/
def scenario2Rows : List Node :=
  List.replicate 16 labelRow ++ [inputRow "21.5", inputRow "60", noValueRow, inputRow "abc"] ++
    List.replicate 9 labelRow

/-- The rows of a page on which the station reports `NaN` in row 16. -/
def nanRows : List Node :=
  List.replicate 16 labelRow ++ [inputRow "NaN", inputRow "60"] ++ List.replicate 11 labelRow

/-- A second table of 18 rows: row 16 has the unparsable value `abc` and row 17
has no input. -/
def shortRows : List Node :=
  List.replicate 16 labelRow ++ [inputRow "abc", labelRow]

/-- The rows of a table with wind gust `60` in row 20 besides scenario 1. -/
def gustRows : List Node :=
  List.replicate 16 labelRow ++ [inputRow "21.5", inputRow "60"] ++
    List.replicate 2 labelRow ++ [inputRow "60"] ++ List.replicate 8 labelRow

/-- A page of two tables with 8 rows each, all with a parsable value. -/
def smallPage : Node :=
  pageOf [tableOf (List.replicate 8 (inputRow "60")), tableOf (List.replicate 8 (inputRow "21.5"))]

/-- A clock reading: 9 March 2024, 07:05:00. -/
def sampleTime : Time :=
  { Year := 2024, Month := 3, Day := 9, Hour := 7, Minute := 5, Second := 0 }

/-- An environment with every variable of the program set. -/
def fullEnv : Env := fun key =>
  if key = "PWS_IP" then some "192.168.1.10"
  else if key = "FETCH_INTERVAL" then some "60"
  else if key = "USERNAME" then some "joe"
  else if key = "PASSWORD" then some "secret"
  else none

/-- An environment without `PWS_IP`. -/
def noIpEnv : Env := fun key =>
  if key = "FETCH_INTERVAL" then some "60" else none

/-- An environment with interval zero and no credentials. -/
def bareEnv : Env := fun key =>
  if key = "PWS_IP" then some "192.168.1.10"
  else if key = "FETCH_INTERVAL" then some "0"
  else none

/-- An environment whose interval in nanoseconds does not fit an int64. -/
def longEnv : Env := fun key =>
  if key = "PWS_IP" then some "192.168.1.10"
  else if key = "FETCH_INTERVAL" then some "9223372037"
  else none

/-- A pass in which the station refuses the connection. -/
def refusedCycle : Cycle :=
  { get := .connectError "connection refused", now := sampleTime, post := .response "200 OK" }

/-- A pass in which the station answers with the page of scenario 1 and the
upload fails. -/
def uploadFailsCycle : Cycle :=
  { get := .document (pageOf [tableOf scenario1Rows]), now := sampleTime,
    post := .error "timeout" }

/-- A pass in which the fetch and the upload succeed. -/
def goodCycle : Cycle :=
  { get := .document (pageOf [tableOf scenario1Rows]), now := sampleTime,
    post := .response "200 OK" }

/-- A reading with temperature 7 and humidity 45.6 (the float64 nearest to it). -/
def sampleReading : WeatherData :=
  { WeatherData.zero with
    Temperature := .finite false 7 0
    Humidity := .finite false 6417629469002957 (-47) }

/-- The same reading as `sampleReading` in the eight uploaded fields, with other
values in fields that are not uploaded. -/
def otherReading : WeatherData :=
  { sampleReading with
    ReceiverTime := "07:04 3/9/2024"
    TemperatureIndoor := .finite false 43 (-1)
    HumidityIndoor := .finite false 60 0
    PressureAbsolute := .finite false 1013 0
    SolarRadiation := .finite false 60 0
    Uv := .finite false 3 0
    Uvi := .finite false 1 0
    PrecipWeekly := .finite false 5 (-1)
    PrecipMonthly := .finite false 7 0
    PrecipYearly := .finite false 60 0 }

/-- A reading whose temperature is NaN, as `parseFloat` returns for `NaN`. -/
def nanReading : WeatherData :=
  { WeatherData.zero with Temperature := .nan }

/-! ## Lemmas on parseHtml -/

theorem fieldFrom_fieldFrom {α : Type} (old : α) (read : String → α) (a b : Option Node) :
    fieldFrom (fieldFrom old read a) read b = fieldFrom old read (b.or a) := by
  cases b <;> rfl

theorem fieldFrom_congr {α : Type} (old : α) (read : String → α) (a b : Option Node)
    (h : a.map rowValue = b.map rowValue) : fieldFrom old read a = fieldFrom old read b := by
  cases a <;> cases b <;> simp_all [fieldFrom]

theorem applyRows_none (pf : ParseFloatFn) (w : WeatherData) :
    applyRows pf w (fun _ => none) = w := rfl

theorem applyRows_applyRows (pf : ParseFloatFn) (w : WeatherData) (f g : Nat → Option Node) :
    applyRows pf (applyRows pf w f) g = applyRows pf w (fun k => (g k).or (f k)) := by
  simp only [applyRows, fieldFrom_fieldFrom]

theorem parseRow_eq (pf : ParseFloatFn) (w : WeatherData) (i : Nat) (s : Node) :
    parseRow pf w i s = applyRows pf w (fun k => if i = k then some s else none) := by
  unfold parseRow
  split <;> simp_all [applyRows, fieldFrom]

theorem eachRow_eq (pf : ParseFloatFn) (rows : List Node) (i : Nat) (w : WeatherData) :
    eachRow pf rows i w = applyRows pf w (fun k => if k < i then none else rows[k - i]?) := by
  induction rows generalizing i w with
  | nil => simp [eachRow, applyRows_none]
  | cons s rest ih =>
    rw [eachRow, ih, parseRow_eq, applyRows_applyRows]
    congr 1
    funext k
    by_cases h1 : k < i
    · have h2 : k < i + 1 := by omega
      have h3 : i ≠ k := by omega
      simp [h1, h2, h3]
    · by_cases h4 : i = k
      · subst h4
        simp
      · have h5 : ¬ k < i + 1 := by omega
        have h6 : k - i = (k - (i + 1)) + 1 := by omega
        simp [h1, h4, h5]
        rw [h6, List.getElem?_cons_succ]

theorem parseTable_eq (pf : ParseFloatFn) (w : WeatherData) (t : Node) :
    parseTable pf w t = applyRows pf w (fun k => (find "tr" t)[k]?) := by
  simp [parseTable, eachRow_eq]

theorem lastRowAt_cons (rows : List Node) (tables : List (List Node)) (k : Nat) :
    lastRowAt (rows :: tables) k = (lastRowAt tables k).or (rows[k]?) := by
  unfold lastRowAt
  cases h : rows[k]? with
  | none => simp [List.filterMap_cons, h]
  | some r =>
    simp only [List.filterMap_cons, h, List.getLast?_cons]
    cases (List.filterMap (fun rows => rows[k]?) tables).getLast? <;> rfl

theorem lastRowAt_single (rows : List Node) (k : Nat) : lastRowAt [rows] k = rows[k]? := by
  rw [lastRowAt_cons]
  cases rows[k]? <;> rfl

theorem foldl_parseTable_eq (pf : ParseFloatFn) (tables : List Node) (w : WeatherData) :
    tables.foldl (parseTable pf) w =
      applyRows pf w (lastRowAt (tables.map (find "tr"))) := by
  induction tables generalizing w with
  | nil => exact (applyRows_none pf w).symm
  | cons t rest ih =>
    rw [List.foldl_cons, ih, parseTable_eq, applyRows_applyRows]
    congr 1
    funext k
    rw [List.map_cons, lastRowAt_cons]

/-- The reading returned by `parseHtml` takes each mapped field from the row at
the index of the field in the last table that has such a row. -/
theorem parseHtml_eq (pf : ParseFloatFn) (doc : Node) :
    parseHtml pf doc =
      applyRows pf WeatherData.zero (lastRowAt ((find "table" doc).map (find "tr"))) :=
  foldl_parseTable_eq pf _ _

theorem parseHtml_eq_of_single (pf : ParseFloatFn) (doc t : Node)
    (h : find "table" doc = [t]) :
    parseHtml pf doc = applyRows pf WeatherData.zero (fun k => (find "tr" t)[k]?) := by
  rw [parseHtml_eq, h]
  congr 1
  funext k
  simp [lastRowAt_single]

theorem parseFloat_of_error (pf : ParseFloatFn) (s : String) (h : (pf s).2 ≠ none) :
    parseFloat pf s = Float64.zero := by
  unfold parseFloat
  split
  · rfl
  · rename_i f heq
    rw [heq] at h
    exact absurd rfl h

/-! ## Claims on parseHtml -/

/-- C1: in a document with exactly one table, `parseHtml` takes every mapped
field from the row at its fixed index, counted from 0: `ReceiverTime` is the raw
value of row 8, and the seventeen numeric fields are `parseFloat` of the value
of the first input of rows 12 to 28, in the order of the mapping table; a field
whose row is missing and the unmapped fields keep the zero value; rows at other
indices do not affect the reading. -/
theorem parseHtml_single_table (pf : ParseFloatFn) (doc t : Node)
    (h : find "table" doc = [t]) :
    parseHtml pf doc = applyRows pf WeatherData.zero (fun k => (find "tr" t)[k]?) ∧
    (∀ s, (find "tr" t)[8]? = some s → (parseHtml pf doc).ReceiverTime = rowValue s) ∧
    (∀ s, (find "tr" t)[12]? = some s →
      (parseHtml pf doc).TemperatureIndoor = parseFloat pf (rowValue s)) ∧
    (∀ s, (find "tr" t)[13]? = some s →
      (parseHtml pf doc).HumidityIndoor = parseFloat pf (rowValue s)) ∧
    (∀ s, (find "tr" t)[14]? = some s →
      (parseHtml pf doc).PressureAbsolute = parseFloat pf (rowValue s)) ∧
    (∀ s, (find "tr" t)[15]? = some s →
      (parseHtml pf doc).PressureRelative = parseFloat pf (rowValue s)) ∧
    (∀ s, (find "tr" t)[16]? = some s →
      (parseHtml pf doc).Temperature = parseFloat pf (rowValue s)) ∧
    (∀ s, (find "tr" t)[17]? = some s →
      (parseHtml pf doc).Humidity = parseFloat pf (rowValue s)) ∧
    (∀ s, (find "tr" t)[18]? = some s →
      (parseHtml pf doc).WindDir = parseFloat pf (rowValue s)) ∧
    (∀ s, (find "tr" t)[19]? = some s →
      (parseHtml pf doc).WindSpeed = parseFloat pf (rowValue s)) ∧
    (∀ s, (find "tr" t)[20]? = some s →
      (parseHtml pf doc).WindGust = parseFloat pf (rowValue s)) ∧
    (∀ s, (find "tr" t)[21]? = some s →
      (parseHtml pf doc).SolarRadiation = parseFloat pf (rowValue s)) ∧
    (∀ s, (find "tr" t)[22]? = some s →
      (parseHtml pf doc).Uv = parseFloat pf (rowValue s)) ∧
    (∀ s, (find "tr" t)[23]? = some s →
      (parseHtml pf doc).Uvi = parseFloat pf (rowValue s)) ∧
    (∀ s, (find "tr" t)[24]? = some s →
      (parseHtml pf doc).PrecipHourlyRate = parseFloat pf (rowValue s)) ∧
    (∀ s, (find "tr" t)[25]? = some s →
      (parseHtml pf doc).PrecipDaily = parseFloat pf (rowValue s)) ∧
    (∀ s, (find "tr" t)[26]? = some s →
      (parseHtml pf doc).PrecipWeekly = parseFloat pf (rowValue s)) ∧
    (∀ s, (find "tr" t)[27]? = some s →
      (parseHtml pf doc).PrecipMonthly = parseFloat pf (rowValue s)) ∧
    (∀ s, (find "tr" t)[28]? = some s →
      (parseHtml pf doc).PrecipYearly = parseFloat pf (rowValue s)) ∧
    (∀ doc2 t2 : Node, find "table" doc2 = [t2] →
      (∀ k, k = 8 ∨ (12 ≤ k ∧ k ≤ 28) →
        ((find "tr" t2)[k]?).map rowValue = ((find "tr" t)[k]?).map rowValue) →
      parseHtml pf doc2 = parseHtml pf doc) := by
  have key := parseHtml_eq_of_single pf doc t h
  refine ⟨key, ?_, ?_, ?_, ?_, ?_, ?_, ?_, ?_, ?_, ?_, ?_, ?_, ?_, ?_, ?_, ?_, ?_, ?_, ?_⟩
  case refine_19 =>
    intro doc2 t2 h2 hk
    rw [key, parseHtml_eq_of_single pf doc2 t2 h2]
    simp only [applyRows]
    rw [fieldFrom_congr _ _ _ _ (hk 8 (by omega)), fieldFrom_congr _ _ _ _ (hk 12 (by omega)),
      fieldFrom_congr _ _ _ _ (hk 13 (by omega)), fieldFrom_congr _ _ _ _ (hk 14 (by omega)),
      fieldFrom_congr _ _ _ _ (hk 15 (by omega)), fieldFrom_congr _ _ _ _ (hk 16 (by omega)),
      fieldFrom_congr _ _ _ _ (hk 17 (by omega)), fieldFrom_congr _ _ _ _ (hk 18 (by omega)),
      fieldFrom_congr _ _ _ _ (hk 19 (by omega)), fieldFrom_congr _ _ _ _ (hk 20 (by omega)),
      fieldFrom_congr _ _ _ _ (hk 21 (by omega)), fieldFrom_congr _ _ _ _ (hk 22 (by omega)),
      fieldFrom_congr _ _ _ _ (hk 23 (by omega)), fieldFrom_congr _ _ _ _ (hk 24 (by omega)),
      fieldFrom_congr _ _ _ _ (hk 25 (by omega)), fieldFrom_congr _ _ _ _ (hk 26 (by omega)),
      fieldFrom_congr _ _ _ _ (hk 27 (by omega)), fieldFrom_congr _ _ _ _ (hk 28 (by omega))]
  all_goals
    intro s hs
    rw [key]
    simp [applyRows, fieldFrom, hs]

/-- Scenario 1 of the specification: row 16 with value `21.5` and row 17 with
value `60` give temperature 21.5 and humidity 60. -/
theorem parseHtml_single_table_witness :
    find "table" (pageOf [tableOf scenario1Rows]) = [tableOf scenario1Rows] ∧
    (find "tr" (tableOf scenario1Rows)).length = 29 ∧
    (parseHtml scenarioParseFloat (pageOf [tableOf scenario1Rows])).Temperature =
      .finite false 43 (-1) ∧
    (parseHtml scenarioParseFloat (pageOf [tableOf scenario1Rows])).Humidity =
      .finite false 60 0 :=
  ⟨rfl, rfl,
    ((parseHtml_single_table scenarioParseFloat (pageOf [tableOf scenario1Rows])
      (tableOf scenario1Rows) rfl).2.2.2.2.2.2.1 (inputRow "21.5") rfl).trans (by decide),
    ((parseHtml_single_table scenarioParseFloat (pageOf [tableOf scenario1Rows])
      (tableOf scenario1Rows) rfl).2.2.2.2.2.2.2.1 (inputRow "60") rfl).trans (by decide)⟩

theorem rowValue_of_no_input (s : Node) (h : find "input" s = []) : rowValue s = "" := by
  simp [rowValue, attrOr, h]

theorem rowValue_of_no_value (s n : Node) (rest : List Node) (h : find "input" s = n :: rest)
    (hv : getAttributeValue "value" n.attrs = none) : rowValue s = "" := by
  simp [rowValue, attrOr, h, hv]

/-- The numeric field of row index `k` is `parseFloat` of the value of the row
that decides it. -/
theorem numericField_parseHtml (pf : ParseFloatFn) (doc : Node) (k : Nat)
    (h1 : 12 ≤ k) (h2 : k ≤ 28) (s : Node)
    (hrow : lastRowAt ((find "table" doc).map (find "tr")) k = some s) :
    numericField k (parseHtml pf doc) = some (parseFloat pf (rowValue s)) := by
  rw [parseHtml_eq]
  interval_cases k <;> simp [numericField, applyRows, fieldFrom, hrow]

theorem parseFloat_rowValue_zero (pf : ParseFloatFn) (hempty : (pf "").2 ≠ none) (s : Node)
    (hbad : find "input" s = [] ∨
      (∃ n rest, find "input" s = n :: rest ∧ getAttributeValue "value" n.attrs = none) ∨
      (pf (rowValue s)).2 ≠ none) :
    parseFloat pf (rowValue s) = Float64.zero := by
  rcases hbad with h | ⟨n, rest, h, hv⟩ | h
  · rw [rowValue_of_no_input s h]
    exact parseFloat_of_error pf _ hempty
  · rw [rowValue_of_no_value s n rest h hv]
    exact parseFloat_of_error pf _ hempty
  · exact parseFloat_of_error pf _ h

/-- C2: for every document and every numeric row index `k` from 12 to 28, when
the row that decides the field (row `k` of the last table that has one) has no
input element, or its first input has no value attribute, or `ParseFloat`
reports an error on the value, the field mapped to `k` is exactly 0, and
`parseFloat` is 0 on every string that `ParseFloat` rejects; `ParseFloat`
rejects the empty string. The function `parseHtml` is total: it returns a
reading on every document. -/
theorem parseHtml_unparsable_zero (pf : ParseFloatFn) (hempty : (pf "").2 ≠ none)
    (doc : Node) (k : Nat) (hk : 12 ≤ k ∧ k ≤ 28) (s : Node)
    (hrow : lastRowAt ((find "table" doc).map (find "tr")) k = some s)
    (hbad : find "input" s = [] ∨
      (∃ n rest, find "input" s = n :: rest ∧ getAttributeValue "value" n.attrs = none) ∨
      (pf (rowValue s)).2 ≠ none) :
    numericField k (parseHtml pf doc) = some Float64.zero ∧
    parseFloat pf "" = Float64.zero ∧
    ∀ str, (pf str).2 ≠ none → parseFloat pf str = Float64.zero := by
  refine ⟨?_, parseFloat_of_error pf _ hempty, fun str h => parseFloat_of_error pf str h⟩
  rw [numericField_parseHtml pf doc k hk.1 hk.2 s hrow,
    parseFloat_rowValue_zero pf hempty s hbad]

/-- Scenario 2 of the specification: row 19 with value `abc` gives wind speed 0. -/
theorem parseHtml_unparsable_zero_witness :
    (scenarioParseFloat "").2 ≠ none ∧
    lastRowAt ((find "table" (pageOf [tableOf scenario2Rows])).map (find "tr")) 19 =
      some (inputRow "abc") ∧
    (scenarioParseFloat (rowValue (inputRow "abc"))).2 ≠ none ∧
    (parseHtml scenarioParseFloat (pageOf [tableOf scenario2Rows])).WindSpeed = Float64.zero :=
  ⟨by decide, rfl, by decide,
    Option.some.inj (parseHtml_unparsable_zero scenarioParseFloat (by decide)
      (pageOf [tableOf scenario2Rows]) 19 (by decide) (inputRow "abc") rfl
      (Or.inr (Or.inr (by decide)))).1⟩

/-- C3: two documents with a single table each, whose rows carry the same
values except at row `k` (the rows are compared index by index, so the tables
have the same rows apart from that one), give readings that agree on every
field except the one mapped to `k`; when `k` is not a mapped index the two
readings are equal. -/
theorem parseHtml_frame (pf : ParseFloatFn) (doc1 doc2 t1 t2 : Node) (k : Nat)
    (h1 : find "table" doc1 = [t1]) (h2 : find "table" doc2 = [t2])
    (hsame : ∀ j, j ≠ k →
      ((find "tr" t1)[j]?).map rowValue = ((find "tr" t2)[j]?).map rowValue) :
    (k ≠ 8 → (parseHtml pf doc1).ReceiverTime = (parseHtml pf doc2).ReceiverTime) ∧
    (parseHtml pf doc1).ReceiverTimestamp = (parseHtml pf doc2).ReceiverTimestamp ∧
    (k ≠ 12 → (parseHtml pf doc1).TemperatureIndoor = (parseHtml pf doc2).TemperatureIndoor) ∧
    (k ≠ 13 → (parseHtml pf doc1).HumidityIndoor = (parseHtml pf doc2).HumidityIndoor) ∧
    (k ≠ 14 → (parseHtml pf doc1).PressureAbsolute = (parseHtml pf doc2).PressureAbsolute) ∧
    (k ≠ 15 → (parseHtml pf doc1).PressureRelative = (parseHtml pf doc2).PressureRelative) ∧
    (k ≠ 16 → (parseHtml pf doc1).Temperature = (parseHtml pf doc2).Temperature) ∧
    (k ≠ 17 → (parseHtml pf doc1).Humidity = (parseHtml pf doc2).Humidity) ∧
    (parseHtml pf doc1).DewPoint = (parseHtml pf doc2).DewPoint ∧
    (k ≠ 18 → (parseHtml pf doc1).WindDir = (parseHtml pf doc2).WindDir) ∧
    (parseHtml pf doc1).WindDirCardinal = (parseHtml pf doc2).WindDirCardinal ∧
    (k ≠ 19 → (parseHtml pf doc1).WindSpeed = (parseHtml pf doc2).WindSpeed) ∧
    (k ≠ 20 → (parseHtml pf doc1).WindGust = (parseHtml pf doc2).WindGust) ∧
    (parseHtml pf doc1).WindChill = (parseHtml pf doc2).WindChill ∧
    (k ≠ 21 → (parseHtml pf doc1).SolarRadiation = (parseHtml pf doc2).SolarRadiation) ∧
    (k ≠ 22 → (parseHtml pf doc1).Uv = (parseHtml pf doc2).Uv) ∧
    (k ≠ 23 → (parseHtml pf doc1).Uvi = (parseHtml pf doc2).Uvi) ∧
    (k ≠ 24 → (parseHtml pf doc1).PrecipHourlyRate = (parseHtml pf doc2).PrecipHourlyRate) ∧
    (k ≠ 25 → (parseHtml pf doc1).PrecipDaily = (parseHtml pf doc2).PrecipDaily) ∧
    (k ≠ 26 → (parseHtml pf doc1).PrecipWeekly = (parseHtml pf doc2).PrecipWeekly) ∧
    (k ≠ 27 → (parseHtml pf doc1).PrecipMonthly = (parseHtml pf doc2).PrecipMonthly) ∧
    (k ≠ 28 → (parseHtml pf doc1).PrecipYearly = (parseHtml pf doc2).PrecipYearly) ∧
    (parseHtml pf doc1).HeatIndex = (parseHtml pf doc2).HeatIndex ∧
    (k ≠ 8 ∧ ¬ (12 ≤ k ∧ k ≤ 28) → parseHtml pf doc1 = parseHtml pf doc2) := by
  have e1 := parseHtml_eq_of_single pf doc1 t1 h1
  have e2 := parseHtml_eq_of_single pf doc2 t2 h2
  have hf : ∀ {α : Type} (old : α) (read : String → α) (j : Nat), k ≠ j →
      fieldFrom old read ((find "tr" t1)[j]?) = fieldFrom old read ((find "tr" t2)[j]?) :=
    fun old read j hj => fieldFrom_congr old read _ _ (hsame j (Ne.symm hj))
  rw [e1, e2]
  refine ⟨?_, rfl, ?_, ?_, ?_, ?_, ?_, ?_, rfl, ?_, rfl, ?_, ?_, rfl, ?_, ?_, ?_, ?_, ?_, ?_,
    ?_, ?_, rfl, ?_⟩
  case refine_19 =>
    rintro ⟨h8, hr⟩
    simp only [applyRows]
    rw [hf _ _ 8 h8, hf _ _ 12 (by omega), hf _ _ 13 (by omega), hf _ _ 14 (by omega),
      hf _ _ 15 (by omega), hf _ _ 16 (by omega), hf _ _ 17 (by omega), hf _ _ 18 (by omega),
      hf _ _ 19 (by omega), hf _ _ 20 (by omega), hf _ _ 21 (by omega), hf _ _ 22 (by omega),
      hf _ _ 23 (by omega), hf _ _ 24 (by omega), hf _ _ 25 (by omega), hf _ _ 26 (by omega),
      hf _ _ 27 (by omega), hf _ _ 28 (by omega)]
  all_goals
    intro hne
    exact hf _ _ _ hne

theorem gustRows_same_values (j : Nat) (hj : j ≠ 20) :
    ((find "tr" (tableOf gustRows))[j]?).map rowValue =
      ((find "tr" (tableOf scenario1Rows))[j]?).map rowValue := by
  rcases Nat.lt_or_ge j 29 with h | h
  · interval_cases j <;> first | rfl | exact absurd rfl hj
  · have l1 : (find "tr" (tableOf gustRows)).length ≤ j := h
    have l2 : (find "tr" (tableOf scenario1Rows)).length ≤ j := h
    rw [List.getElem?_eq_none l1, List.getElem?_eq_none l2]

/-- Two station pages that differ in the value of row 20 only: the temperature
is the same, and the wind gust, the field of row 20, is not. -/
theorem parseHtml_frame_witness :
    find "table" (pageOf [tableOf gustRows]) = [tableOf gustRows] ∧
    find "table" (pageOf [tableOf scenario1Rows]) = [tableOf scenario1Rows] ∧
    (∀ j, j ≠ 20 → ((find "tr" (tableOf gustRows))[j]?).map rowValue =
      ((find "tr" (tableOf scenario1Rows))[j]?).map rowValue) ∧
    (parseHtml scenarioParseFloat (pageOf [tableOf gustRows])).Temperature =
      (parseHtml scenarioParseFloat (pageOf [tableOf scenario1Rows])).Temperature ∧
    (parseHtml scenarioParseFloat (pageOf [tableOf gustRows])).WindGust ≠
      (parseHtml scenarioParseFloat (pageOf [tableOf scenario1Rows])).WindGust :=
  ⟨rfl, rfl, gustRows_same_values,
    (parseHtml_frame scenarioParseFloat (pageOf [tableOf gustRows])
      (pageOf [tableOf scenario1Rows]) (tableOf gustRows) (tableOf scenario1Rows) 20 rfl rfl
      gustRows_same_values).2.2.2.2.2.2.1 (by decide),
    by decide⟩

theorem applyRows_zero_of_none (pf : ParseFloatFn) (row : Nat → Option Node)
    (h : ∀ k, 8 ≤ k → row k = none) : applyRows pf WeatherData.zero row = WeatherData.zero := by
  simp [applyRows, fieldFrom, h, WeatherData.zero]

theorem lastRowAt_eq_none (tables : List (List Node)) (k : Nat)
    (h : ∀ rows ∈ tables, rows.length ≤ k) : lastRowAt tables k = none := by
  induction tables with
  | nil => rfl
  | cons rows rest ih =>
    rw [lastRowAt_cons, ih (fun r hr => h r (List.mem_cons_of_mem _ hr)),
      List.getElem?_eq_none (h rows (List.mem_cons_self _ _))]
    rfl

theorem lastRowAt_append_single (tables : List (List Node)) (rows : List Node) (k : Nat) :
    lastRowAt (tables ++ [rows]) k = (rows[k]?).or (lastRowAt tables k) := by
  induction tables with
  | nil =>
    rw [List.nil_append, lastRowAt_single]
    cases rows[k]? <;> rfl
  | cons t rest ih =>
    rw [List.cons_append, lastRowAt_cons, ih, lastRowAt_cons]
    cases rows[k]? <;> rfl

/-- C9: in a document with several tables, `parseHtml` counts the rows of each
table from 0 and takes every mapped field from the row at its index in the last
table, in document order, that has a row at that index: the rows of a later
table overwrite what earlier tables gave, with `parseFloat` of the value, which
is the empty string for a missing input or value; a document without a table,
or whose tables all have fewer than 9 rows, gives the zero reading with an
empty timestamp. -/
theorem parseHtml_last_table (pf : ParseFloatFn) (doc : Node) :
    parseHtml pf doc =
      applyRows pf WeatherData.zero (lastRowAt ((find "table" doc).map (find "tr"))) ∧
    (∀ (earlier : List Node) (t : Node), find "table" doc = earlier ++ [t] →
      parseHtml pf doc =
        applyRows pf (applyRows pf WeatherData.zero (lastRowAt (earlier.map (find "tr"))))
          (fun k => (find "tr" t)[k]?)) ∧
    (∀ s, lastRowAt ((find "table" doc).map (find "tr")) 8 = some s →
      (parseHtml pf doc).ReceiverTime = rowValue s) ∧
    (∀ k s, 12 ≤ k → k ≤ 28 → lastRowAt ((find "table" doc).map (find "tr")) k = some s →
      numericField k (parseHtml pf doc) = some (parseFloat pf (rowValue s))) ∧
    (∀ s, find "input" s = [] ∨
        (∃ n rest, find "input" s = n :: rest ∧ getAttributeValue "value" n.attrs = none) →
      rowValue s = "") ∧
    ((pf "").2 ≠ none → ∀ k s, 12 ≤ k → k ≤ 28 →
      lastRowAt ((find "table" doc).map (find "tr")) k = some s →
      (find "input" s = [] ∨
        (∃ n rest, find "input" s = n :: rest ∧ getAttributeValue "value" n.attrs = none) ∨
        (pf (rowValue s)).2 ≠ none) →
      numericField k (parseHtml pf doc) = some Float64.zero) ∧
    (find "table" doc = [] → parseHtml pf doc = WeatherData.zero) ∧
    ((∀ t ∈ find "table" doc, (find "tr" t).length < 9) →
      parseHtml pf doc = WeatherData.zero) := by
  have hsmall : (∀ t ∈ find "table" doc, (find "tr" t).length < 9) →
      parseHtml pf doc = WeatherData.zero := by
    intro h
    rw [parseHtml_eq]
    apply applyRows_zero_of_none
    intro k hk
    apply lastRowAt_eq_none
    intro rows hrows
    obtain ⟨t, ht, rfl⟩ := List.mem_map.mp hrows
    have := h t ht
    omega
  refine ⟨parseHtml_eq pf doc, ?_, ?_, ?_, ?_, ?_, ?_, hsmall⟩
  · intro earlier t h
    rw [parseHtml_eq, h, applyRows_applyRows]
    congr 1
    funext k
    rw [List.map_append, List.map_singleton, lastRowAt_append_single]
  · intro s hs
    rw [parseHtml_eq]
    simp [applyRows, fieldFrom, hs]
  · intro k s h1 h2 hs
    exact numericField_parseHtml pf doc k h1 h2 s hs
  · rintro s (h | ⟨n, rest, h, hv⟩)
    · exact rowValue_of_no_input s h
    · exact rowValue_of_no_value s n rest h hv
  · intro hempty k s h1 h2 hs hbad
    rw [numericField_parseHtml pf doc k h1 h2 s hs, parseFloat_rowValue_zero pf hempty s hbad]
  · intro h
    apply hsmall
    simp [h]

/-- A page of two tables: the first gives temperature 21.5, humidity 60 and wind
gust 60; the second, of 18 rows, resets temperature and humidity to 0 with an
unparsable value and a missing input and leaves the wind gust; and a page whose
tables have 8 rows gives the zero reading. -/
theorem parseHtml_last_table_witness :
    find "table" (pageOf [tableOf gustRows, tableOf shortRows]) =
      [tableOf gustRows] ++ [tableOf shortRows] ∧
    parseHtml scenarioParseFloat (pageOf [tableOf gustRows, tableOf shortRows]) =
      { WeatherData.zero with WindGust := .finite false 60 0 } ∧
    parseHtml scenarioParseFloat (pageOf [tableOf gustRows]) =
      { WeatherData.zero with
        Temperature := .finite false 43 (-1)
        Humidity := .finite false 60 0
        WindGust := .finite false 60 0 } ∧
    (∀ t ∈ find "table" smallPage, (find "tr" t).length < 9) ∧
    parseHtml scenarioParseFloat smallPage = WeatherData.zero :=
  ⟨rfl,
    ((parseHtml_last_table scenarioParseFloat
      (pageOf [tableOf gustRows, tableOf shortRows])).2.1 [tableOf gustRows] (tableOf shortRows)
      rfl).trans (by decide),
    by decide,
    by decide,
    (parseHtml_last_table scenarioParseFloat smallPage).2.2.2.2.2.2.2 (by decide)⟩

/-! ## Lemmas on the formatting -/

theorem digitChar_isDigit (d : Nat) (h : d < 10) : (Nat.digitChar d).isDigit = true := by
  interval_cases d <;> decide

theorem toDigitsCore_isDigit (fuel : Nat) : ∀ (n : Nat) (ds : List Char),
    (∀ c ∈ ds, c.isDigit = true) → ∀ c ∈ Nat.toDigitsCore 10 fuel n ds, c.isDigit = true := by
  induction fuel with
  | zero => intro n ds h; simpa [Nat.toDigitsCore] using h
  | succ f ih =>
    intro n ds h
    have hd : (Nat.digitChar (n % 10)).isDigit = true :=
      digitChar_isDigit _ (Nat.mod_lt _ (by decide))
    have h2 : ∀ c ∈ Nat.digitChar (n % 10) :: ds, c.isDigit = true := by
      intro c hc
      rcases List.mem_cons.mp hc with rfl | hc
      · exact hd
      · exact h c hc
    simp only [Nat.toDigitsCore]
    split
    · exact h2
    · exact ih _ _ h2

theorem toDigitsCore_ne_nil (fuel : Nat) : ∀ (n : Nat) (ds : List Char),
    (fuel ≠ 0 ∨ ds ≠ []) → Nat.toDigitsCore 10 fuel n ds ≠ [] := by
  induction fuel with
  | zero => intro n ds h; simpa [Nat.toDigitsCore] using h
  | succ f ih =>
    intro n ds _
    simp only [Nat.toDigitsCore]
    split
    · simp
    · exact ih _ _ (Or.inr (by simp))

theorem repr_data (n : Nat) : (Nat.repr n).data = Nat.toDigits 10 n := rfl

theorem toDigits_isDigit (n : Nat) : ∀ c ∈ Nat.toDigits 10 n, c.isDigit = true :=
  toDigitsCore_isDigit _ _ _ (by simp)

theorem toDigits_ne_nil (n : Nat) : Nat.toDigits 10 n ≠ [] :=
  toDigitsCore_ne_nil _ _ _ (Or.inl (by simp))

theorem fracDigits_length (prec : Nat) : ∀ n, (fracDigits prec n).length = prec := by
  induction prec with
  | zero => intro n; rfl
  | succ p ih => intro n; simp [fracDigits, ih]

theorem fracDigits_isDigit (prec : Nat) : ∀ n, ∀ c ∈ fracDigits prec n, c.isDigit = true := by
  induction prec with
  | zero => intro n c hc; simp [fracDigits] at hc
  | succ p ih =>
    intro n c hc
    simp only [fracDigits, List.mem_append, List.mem_singleton] at hc
    rcases hc with hc | rfl
    · exact ih _ _ hc
    · exact digitChar_isDigit _ (Nat.mod_lt _ (by decide))

theorem takeWhile_digits (ip rest : List Char) (h : ∀ c ∈ ip, c.isDigit = true)
    (hr : rest = [] ∨ ∃ fp, rest = '.' :: fp) :
    (ip ++ rest).takeWhile Char.isDigit = ip ∧ (ip ++ rest).dropWhile Char.isDigit = rest := by
  induction ip with
  | nil =>
    rcases hr with rfl | ⟨fp, rfl⟩
    · simp
    · have : Char.isDigit '.' = false := by decide
      simp [List.takeWhile, List.dropWhile, this]
  | cons c cs ih =>
    have hc : c.isDigit = true := h c (by simp)
    have := ih (fun d hd => h d (by simp [hd]))
    simp [List.takeWhile, List.dropWhile, hc, this]

/-- A sign, one or more digits and a fraction of `prec` digits form a numeral
with exactly `prec` decimals. -/
theorem fixedDecimals_of_shape (prec : Nat) (neg : Bool) (ip fp : List Char)
    (hip : ip ≠ []) (hipd : ∀ c ∈ ip, c.isDigit = true)
    (hfl : fp.length = prec) (hfd : ∀ c ∈ fp, c.isDigit = true) :
    fixedDecimals prec
      (String.mk ((if neg then ['-'] else []) ++ ip ++ (if prec = 0 then [] else '.' :: fp)))
      = true := by
  have hhead : ∀ rest : List Char,
      (match (if neg then ['-'] else []) ++ ip ++ rest with
        | '-' :: r => r
        | cs => cs) = ip ++ rest := by
    intro rest
    cases neg with
    | true => simp
    | false =>
      cases ip with
      | nil => exact absurd rfl hip
      | cons c cs =>
        have hc : c.isDigit = true := hipd c (by simp)
        have hne : c ≠ '-' := by
          rintro rfl
          exact absurd hc (by decide)
        simp only [Bool.false_eq_true, if_false, List.nil_append, List.cons_append]
        split
        · rename_i r heq
          simp only [List.cons.injEq] at heq
          exact absurd heq.1 hne
        · rfl
  unfold fixedDecimals
  simp only [hhead]
  by_cases hp : prec = 0
  · have := takeWhile_digits ip [] hipd (Or.inl rfl)
    simp only [List.append_nil] at this
    simp [hp, this, hip]
  · have := takeWhile_digits ip ('.' :: fp) hipd (Or.inr ⟨fp, rfl⟩)
    simp [hp, this, hip, hfl]
    exact hfd

theorem sprintfFixed_finite_data (prec : Nat) (neg : Bool) (m : Nat) (e : Int) :
    sprintfFixed prec (.finite neg m e) =
      String.mk ((if neg then ['-'] else []) ++
        Nat.toDigits 10 (scaledRound prec m e / 10 ^ prec) ++
        (if prec = 0 then [] else '.' :: fracDigits prec (scaledRound prec m e % 10 ^ prec))) := by
  apply String.ext
  cases neg <;> by_cases hp : prec = 0 <;> simp [sprintfFixed, hp, repr_data]

/-- The verb `%.Nf` writes a finite number with exactly `N` decimals. -/
theorem sprintfFixed_fixedDecimals (prec : Nat) (x : Float64) (hx : x.isFinite = true) :
    fixedDecimals prec (sprintfFixed prec x) = true := by
  cases x with
  | finite neg m e =>
    rw [sprintfFixed_finite_data]
    exact fixedDecimals_of_shape prec neg _ _ (toDigits_ne_nil _) (toDigits_isDigit _)
      (fracDigits_length _ _) (fracDigits_isDigit _ _)
  | inf neg => simp [Float64.isFinite] at hx
  | nan => simp [Float64.isFinite] at hx

/-- The query string written out: the seventeen pairs in order, one `&` between
two pairs, none before the first or after the last. -/
theorem constructUrl_eq (env : Env) (now : Time) (data : WeatherData) :
    constructUrl env now data =
      "user=" ++ Getenv env "USERNAME" ++ "&" ++ ("pass=" ++ Getenv env "PASSWORD") ++
      "&" ++ ("ev=" ++ sprintfD now.Year) ++ "&" ++ ("ho=" ++ sprintfD now.Month) ++
      "&" ++ ("nap=" ++ sprintfD now.Day) ++ "&" ++ ("ora=" ++ sprintfD now.Hour) ++
      "&" ++ ("perc=" ++ sprintfD now.Minute) ++ "&" ++ ("mp=" ++ sprintfD now.Second) ++
      "&" ++ ("hom=" ++ sprintfFixed 1 data.Temperature) ++
      "&" ++ ("rh=" ++ sprintfFixed 0 data.Humidity) ++
      "&" ++ ("szelirany=" ++ sprintfFixed 0 data.WindDir) ++
      "&" ++ ("szelero=" ++ sprintfFixed 1 data.WindSpeed) ++
      "&" ++ ("szellokes=" ++ sprintfFixed 1 data.WindGust) ++
      "&" ++ ("p=" ++ sprintfFixed 1 data.PressureRelative) ++
      "&" ++ ("csap=" ++ sprintfFixed 2 data.PrecipDaily) ++
      "&" ++ ("csap1h=" ++ sprintfFixed 2 data.PrecipHourlyRate) ++
      "&" ++ "tipus=WH2600" := by
  rfl

theorem toDigitsCore_append (fuel : Nat) : ∀ (n : Nat) (ds : List Char),
    Nat.toDigitsCore 10 fuel n ds = Nat.toDigitsCore 10 fuel n [] ++ ds := by
  induction fuel with
  | zero => intro n ds; simp [Nat.toDigitsCore]
  | succ f ih =>
    intro n ds
    simp only [Nat.toDigitsCore]
    split
    · simp
    · rw [ih _ (_ :: ds), ih _ [_]]
      simp

theorem digitChar_toNat (d : Nat) (h : d < 10) : (Nat.digitChar d).toNat - 48 = d := by
  interval_cases d <;> decide

theorem foldl_digits_snoc (xs : List Char) (c : Char) :
    (xs ++ [c]).foldl (fun acc c => acc * 10 + (c.toNat - 48)) 0 =
      xs.foldl (fun acc c => acc * 10 + (c.toNat - 48)) 0 * 10 + (c.toNat - 48) := by
  simp [List.foldl_append]

theorem toDigitsCore_value (fuel : Nat) : ∀ n, n < fuel →
    (Nat.toDigitsCore 10 fuel n []).foldl (fun acc c => acc * 10 + (c.toNat - 48)) 0 = n := by
  induction fuel with
  | zero => intro n h; omega
  | succ f ih =>
    intro n h
    have hd := digitChar_toNat (n % 10) (Nat.mod_lt _ (by decide))
    simp only [Nat.toDigitsCore]
    split
    · rename_i h0
      simp only [List.foldl_cons, List.foldl_nil, hd]
      omega
    · rename_i h0
      rw [toDigitsCore_append, foldl_digits_snoc, ih (n / 10) (by omega), hd]
      omega

theorem toDigits_value (n : Nat) :
    (Nat.toDigits 10 n).foldl (fun acc c => acc * 10 + (c.toNat - 48)) 0 = n :=
  toDigitsCore_value _ _ (Nat.lt_succ_self n)

theorem toDigitsCore_head (fuel : Nat) : ∀ n, 0 < n → n < fuel →
    (Nat.toDigitsCore 10 fuel n []).head? ≠ some '0' := by
  induction fuel with
  | zero => intro n _ h; omega
  | succ f ih =>
    intro n hpos h
    simp only [Nat.toDigitsCore]
    split
    · rename_i h0
      have h1 : n % 10 < 10 := Nat.mod_lt _ (by decide)
      have h2 : n % 10 ≠ 0 := by omega
      simp only [List.head?_cons, ne_eq, Option.some.injEq]
      interval_cases (n % 10) <;> first | exact absurd rfl h2 | decide
    · rename_i h0
      rw [toDigitsCore_append]
      have hne : Nat.toDigitsCore 10 f (n / 10) [] ≠ [] :=
        toDigitsCore_ne_nil f _ _ (Or.inl (by omega))
      rw [List.head?_append_of_ne_nil _ hne]
      exact ih (n / 10) (by omega) (by omega)

/-- The decimal digits of a positive number do not start with a zero. -/
theorem toDigits_head (n : Nat) (h : 0 < n) : (Nat.toDigits 10 n).head? ≠ some '0' :=
  toDigitsCore_head _ _ h (Nat.lt_succ_self n)

theorem Atoi_digits (ds : List Char) (hne : ds ≠ []) (hd : ∀ c ∈ ds, c.isDigit = true)
    (hv : ds.foldl (fun acc c => acc * 10 + (c.toNat - 48)) 0 < 2 ^ 63) :
    Atoi (String.mk ds) =
      some ((ds.foldl (fun acc c => acc * 10 + (c.toNat - 48)) 0 : Nat) : Int) := by
  obtain ⟨c, cs, rfl⟩ := List.exists_cons_of_ne_nil hne
  have hc : c.isDigit = true := hd c (by simp)
  have h1 : c ≠ '-' := by rintro rfl; exact absurd hc (by decide)
  have h2 : c ≠ '+' := by rintro rfl; exact absurd hc (by decide)
  have hall : (c :: cs).all Char.isDigit = true := List.all_eq_true.mpr hd
  have hm : (match c :: cs with
      | '-' :: rest => rest
      | '+' :: rest => rest
      | cs => cs) = c :: cs := by
    split
    · rename_i r heq
      simp only [List.cons.injEq] at heq
      exact absurd heq.1 h1
    · rename_i r heq
      simp only [List.cons.injEq] at heq
      exact absurd heq.1 h2
    · rfl
  unfold Atoi
  simp only [hm, hall, List.head?_cons, Option.some.injEq, h1, if_false, if_true]
  have : ((List.foldl (fun acc c => acc * 10 + (c.toNat - 48)) 0 (c :: cs) : Nat) : Int)
      < 2 ^ 63 := by exact_mod_cast hv
  simp only [reduceCtorEq, if_false]
  rw [if_pos]
  constructor
  · have : (0 : Int) ≤ ((List.foldl (fun acc c => acc * 10 + (c.toNat - 48)) 0 (c :: cs) : Nat) : Int) :=
      Int.ofNat_nonneg _
    omega
  · exact this

theorem Atoi_neg_digits (ds : List Char) (hne : ds ≠ []) (hd : ∀ c ∈ ds, c.isDigit = true)
    (hv : ds.foldl (fun acc c => acc * 10 + (c.toNat - 48)) 0 ≤ 2 ^ 63) :
    Atoi (String.mk ('-' :: ds)) =
      some (-((ds.foldl (fun acc c => acc * 10 + (c.toNat - 48)) 0 : Nat) : Int)) := by
  have hall : ds.all Char.isDigit = true := List.all_eq_true.mpr hd
  unfold Atoi
  simp only [hne, hall, List.head?_cons, if_false, if_true]
  have : ((List.foldl (fun acc c => acc * 10 + (c.toNat - 48)) 0 ds : Nat) : Int)
      ≤ 2 ^ 63 := by exact_mod_cast hv
  rw [if_pos]
  constructor
  · omega
  · have : (0 : Int) ≤ ((List.foldl (fun acc c => acc * 10 + (c.toNat - 48)) 0 ds : Nat) : Int) :=
      Int.ofNat_nonneg _
    omega

/-- The verb `%d` writes the decimal numeral that `strconv.Atoi` reads back. -/
theorem Atoi_sprintfD (i : Int) (h1 : -(2 : Int) ^ 63 ≤ i) (h2 : i < (2 : Int) ^ 63) :
    Atoi (sprintfD i) = some i := by
  unfold sprintfD
  by_cases hneg : i < 0
  · rw [if_pos hneg]
    have e : "-" ++ Nat.repr i.natAbs = String.mk ('-' :: Nat.toDigits 10 i.natAbs) := by
      apply String.ext
      simp [repr_data]
    rw [e, Atoi_neg_digits _ (toDigits_ne_nil _) (toDigits_isDigit _)
      (by rw [toDigits_value]; omega), toDigits_value]
    congr 1
    omega
  · rw [if_neg hneg]
    have e : Nat.repr i.natAbs = String.mk (Nat.toDigits 10 i.natAbs) := rfl
    rw [e, Atoi_digits _ (toDigits_ne_nil _) (toDigits_isDigit _)
      (by rw [toDigits_value]; omega), toDigits_value]
    congr 1
    omega

theorem sprintfD_head (i : Int) (h : 0 < i) : (sprintfD i).data.head? ≠ some '0' := by
  unfold sprintfD
  rw [if_neg (by omega)]
  exact toDigits_head _ (by omega)

/-! ## Claims on constructUrl -/

/-- C4: the query string of `constructUrl` is the seventeen pairs user, pass,
ev, ho, nap, ora, perc, mp, hom, rh, szelirany, szelero, szellokes, p, csap,
csap1h, tipus in this order, each written key=value, with one `&` between two
pairs and none at either end; ev to mp are the year, month number, day, hour,
minute and second written by `%d`, a decimal numeral that reads back as the
value and has no leading zero; hom to csap1h are the fields Temperature,
Humidity, WindDir, WindSpeed, WindGust, PressureRelative, PrecipDaily and
PrecipHourlyRate; tipus is the constant WH2600. The string is a function of the
reading, the time and the environment. -/
theorem constructUrl_query (env : Env) (now : Time) (data : WeatherData) :
    constructUrl env now data =
      "user=" ++ Getenv env "USERNAME" ++ "&" ++ ("pass=" ++ Getenv env "PASSWORD") ++
      "&" ++ ("ev=" ++ sprintfD now.Year) ++ "&" ++ ("ho=" ++ sprintfD now.Month) ++
      "&" ++ ("nap=" ++ sprintfD now.Day) ++ "&" ++ ("ora=" ++ sprintfD now.Hour) ++
      "&" ++ ("perc=" ++ sprintfD now.Minute) ++ "&" ++ ("mp=" ++ sprintfD now.Second) ++
      "&" ++ ("hom=" ++ sprintfFixed 1 data.Temperature) ++
      "&" ++ ("rh=" ++ sprintfFixed 0 data.Humidity) ++
      "&" ++ ("szelirany=" ++ sprintfFixed 0 data.WindDir) ++
      "&" ++ ("szelero=" ++ sprintfFixed 1 data.WindSpeed) ++
      "&" ++ ("szellokes=" ++ sprintfFixed 1 data.WindGust) ++
      "&" ++ ("p=" ++ sprintfFixed 1 data.PressureRelative) ++
      "&" ++ ("csap=" ++ sprintfFixed 2 data.PrecipDaily) ++
      "&" ++ ("csap1h=" ++ sprintfFixed 2 data.PrecipHourlyRate) ++
      "&" ++ "tipus=WH2600" ∧
    (urlVars env now data).length = 17 ∧
    (∀ v ∈ [now.Year, now.Month, now.Day, now.Hour, now.Minute, now.Second],
      (-(2 : Int) ^ 63 ≤ v → v < (2 : Int) ^ 63 → Atoi (sprintfD v) = some v) ∧
      (0 < v → (sprintfD v).data.head? ≠ some '0')) :=
  ⟨constructUrl_eq env now data, rfl,
    fun v _ => ⟨fun h1 h2 => Atoi_sprintfD v h1 h2, fun h => sprintfD_head v h⟩⟩

/-- The query string of 9 March 2024, 07:05:00, for temperature 7 and humidity
45.6: the month and the hour are written without padding. -/
theorem constructUrl_query_witness :
    constructUrl fullEnv sampleTime sampleReading =
      "user=joe&pass=secret&ev=2024&ho=3&nap=9&ora=7&perc=5&mp=0&hom=7.0&rh=46&szelirany=0&szelero=0.0&szellokes=0.0&p=0.0&csap=0.00&csap1h=0.00&tipus=WH2600" ∧
    Atoi (sprintfD sampleTime.Month) = some 3 ∧
    (sprintfD sampleTime.Month).data.head? ≠ some '0' :=
  ⟨(constructUrl_query fullEnv sampleTime sampleReading).1.trans (by decide),
    ((constructUrl_query fullEnv sampleTime sampleReading).2.2 sampleTime.Month
      (by decide)).1 (by decide) (by decide),
    ((constructUrl_query fullEnv sampleTime sampleReading).2.2 sampleTime.Month
      (by decide)).2 (by decide)⟩

/-- C5, as amended: for every reading whose uploaded fields are finite numbers,
whatever their magnitude, the query string writes hom, szelero, szellokes and p
with exactly one digit after the decimal point, rh and szelirany as digits
without a decimal point, and csap and csap1h with exactly two digits after the
decimal point. -/
theorem constructUrl_precision (env : Env) (now : Time) (data : WeatherData)
    (hT : data.Temperature.isFinite = true) (hH : data.Humidity.isFinite = true)
    (hD : data.WindDir.isFinite = true) (hS : data.WindSpeed.isFinite = true)
    (hG : data.WindGust.isFinite = true) (hP : data.PressureRelative.isFinite = true)
    (hC : data.PrecipDaily.isFinite = true) (hR : data.PrecipHourlyRate.isFinite = true) :
    ∃ hom rh szelirany szelero szellokes p csap csap1h : String,
      constructUrl env now data =
        "user=" ++ Getenv env "USERNAME" ++ "&" ++ ("pass=" ++ Getenv env "PASSWORD") ++
        "&" ++ ("ev=" ++ sprintfD now.Year) ++ "&" ++ ("ho=" ++ sprintfD now.Month) ++
        "&" ++ ("nap=" ++ sprintfD now.Day) ++ "&" ++ ("ora=" ++ sprintfD now.Hour) ++
        "&" ++ ("perc=" ++ sprintfD now.Minute) ++ "&" ++ ("mp=" ++ sprintfD now.Second) ++
        "&" ++ ("hom=" ++ hom) ++ "&" ++ ("rh=" ++ rh) ++
        "&" ++ ("szelirany=" ++ szelirany) ++ "&" ++ ("szelero=" ++ szelero) ++
        "&" ++ ("szellokes=" ++ szellokes) ++ "&" ++ ("p=" ++ p) ++
        "&" ++ ("csap=" ++ csap) ++ "&" ++ ("csap1h=" ++ csap1h) ++ "&" ++ "tipus=WH2600" ∧
      fixedDecimals 1 hom = true ∧ fixedDecimals 0 rh = true ∧
      fixedDecimals 0 szelirany = true ∧ fixedDecimals 1 szelero = true ∧
      fixedDecimals 1 szellokes = true ∧ fixedDecimals 1 p = true ∧
      fixedDecimals 2 csap = true ∧ fixedDecimals 2 csap1h = true :=
  ⟨_, _, _, _, _, _, _, _, constructUrl_eq env now data,
    sprintfFixed_fixedDecimals 1 _ hT, sprintfFixed_fixedDecimals 0 _ hH,
    sprintfFixed_fixedDecimals 0 _ hD, sprintfFixed_fixedDecimals 1 _ hS,
    sprintfFixed_fixedDecimals 1 _ hG, sprintfFixed_fixedDecimals 1 _ hP,
    sprintfFixed_fixedDecimals 2 _ hC, sprintfFixed_fixedDecimals 2 _ hR⟩

/-- Temperature 7 is written `hom=7.0` and humidity 45.6 is written `rh=46`. -/
theorem constructUrl_precision_witness :
    sampleReading.Temperature.isFinite = true ∧ sampleReading.Humidity.isFinite = true ∧
    (urlVars fullEnv sampleTime sampleReading)[8]? = some "hom=7.0" ∧
    (urlVars fullEnv sampleTime sampleReading)[9]? = some "rh=46" ∧
    ∃ hom rh szelirany szelero szellokes p csap csap1h : String,
      constructUrl fullEnv sampleTime sampleReading =
        "user=" ++ Getenv fullEnv "USERNAME" ++ "&" ++ ("pass=" ++ Getenv fullEnv "PASSWORD") ++
        "&" ++ ("ev=" ++ sprintfD sampleTime.Year) ++ "&" ++ ("ho=" ++ sprintfD sampleTime.Month) ++
        "&" ++ ("nap=" ++ sprintfD sampleTime.Day) ++ "&" ++ ("ora=" ++ sprintfD sampleTime.Hour) ++
        "&" ++ ("perc=" ++ sprintfD sampleTime.Minute) ++
        "&" ++ ("mp=" ++ sprintfD sampleTime.Second) ++
        "&" ++ ("hom=" ++ hom) ++ "&" ++ ("rh=" ++ rh) ++
        "&" ++ ("szelirany=" ++ szelirany) ++ "&" ++ ("szelero=" ++ szelero) ++
        "&" ++ ("szellokes=" ++ szellokes) ++ "&" ++ ("p=" ++ p) ++
        "&" ++ ("csap=" ++ csap) ++ "&" ++ ("csap1h=" ++ csap1h) ++ "&" ++ "tipus=WH2600" ∧
      fixedDecimals 1 hom = true ∧ fixedDecimals 0 rh = true ∧
      fixedDecimals 0 szelirany = true ∧ fixedDecimals 1 szelero = true ∧
      fixedDecimals 1 szellokes = true ∧ fixedDecimals 1 p = true ∧
      fixedDecimals 2 csap = true ∧ fixedDecimals 2 csap1h = true :=
  ⟨rfl, rfl, by decide, by decide,
    constructUrl_precision fullEnv sampleTime sampleReading rfl rfl rfl rfl rfl rfl rfl rfl⟩

/-- C5 fails as stated: a reading whose temperature is NaN is written `hom=NaN`,
without a decimal point or a digit; `parseHtml` returns such a reading for a
page whose row 16 has the value `NaN`, which `strconv.ParseFloat` accepts. -/
theorem constructUrl_precision_counterexample :
    constructUrl bareEnv sampleTime nanReading =
      "user=&pass=&ev=2024&ho=3&nap=9&ora=7&perc=5&mp=0&hom=NaN&rh=0&szelirany=0&szelero=0.0&szellokes=0.0&p=0.0&csap=0.00&csap1h=0.00&tipus=WH2600" ∧
    (urlVars bareEnv sampleTime nanReading)[8]? = some ("hom=" ++ "NaN") ∧
    fixedDecimals 1 "NaN" = false ∧
    (parseHtml scenarioParseFloat (pageOf [tableOf nanRows])).Temperature = Float64.nan ∧
    (urlVars bareEnv sampleTime (parseHtml scenarioParseFloat (pageOf [tableOf nanRows])))[8]? =
      some "hom=NaN" := by
  decide

/-- C10: two readings that agree on Temperature, Humidity, WindDir, WindSpeed,
WindGust, PressureRelative, PrecipDaily and PrecipHourlyRate give the same query
string and the same upload, whatever the station timestamp, the indoor
values, the absolute pressure, the solar radiation, the UV values and the
weekly, monthly and yearly precipitation are; the pair p carries the relative
pressure. -/
theorem constructUrl_uploaded_fields (env : Env) (now : Time) (d1 d2 : WeatherData)
    (hT : d1.Temperature = d2.Temperature) (hH : d1.Humidity = d2.Humidity)
    (hD : d1.WindDir = d2.WindDir) (hS : d1.WindSpeed = d2.WindSpeed)
    (hG : d1.WindGust = d2.WindGust) (hP : d1.PressureRelative = d2.PressureRelative)
    (hC : d1.PrecipDaily = d2.PrecipDaily) (hR : d1.PrecipHourlyRate = d2.PrecipHourlyRate) :
    constructUrl env now d1 = constructUrl env now d2 ∧
    (∀ (g : Globals) (post : PostOutcome),
      sendToidokep g env now post d1 = sendToidokep g env now post d2) ∧
    (urlVars env now d1)[13]? = some ("p=" ++ sprintfFixed 1 d1.PressureRelative) := by
  have h : constructUrl env now d1 = constructUrl env now d2 := by
    simp only [constructUrl, urlVars, hT, hH, hD, hS, hG, hP, hC, hR]
  refine ⟨h, ?_, rfl⟩
  intro g post
  simp only [sendToidokep, h]

/-- Two readings that differ in the timestamp, the indoor values, the absolute
pressure, the solar radiation, the UV values and three precipitation sums give
the same query string. -/
theorem constructUrl_uploaded_fields_witness :
    sampleReading ≠ otherReading ∧
    sampleReading.PressureAbsolute ≠ otherReading.PressureAbsolute ∧
    constructUrl fullEnv sampleTime sampleReading =
      constructUrl fullEnv sampleTime otherReading :=
  ⟨by decide, by decide,
    (constructUrl_uploaded_fields fullEnv sampleTime sampleReading otherReading
      rfl rfl rfl rfl rfl rfl rfl rfl).1⟩

/-! ## Claims on main -/

theorem Getenv_eq_empty (env : Env) (key : String)
    (h : env key = none ∨ env key = some "") : Getenv env key = "" := by
  rcases h with h | h <;> simp [Getenv, h]

theorem startup_error_of_bad (env : Env)
    (h : Getenv env "PWS_IP" = "" ∨ Atoi (Getenv env "FETCH_INTERVAL") = none) :
    ∃ msg, startup env = .error msg := by
  unfold startup
  by_cases h1 : Getenv env "PWS_IP" = ""
  · exact ⟨"PWS_IP env var undefined", by simp [h1]⟩
  · by_cases h2 : Getenv env "FETCH_INTERVAL" = ""
    · exact ⟨"FETCH_INTERVAL env var undefined", by simp [h1, h2]⟩
    · rcases h with h | h
      · exact absurd h h1
      · exact ⟨"Invalid FETCH_INTERVAL value: " ++ Getenv env "FETCH_INTERVAL" ++ "\n",
          by simp [h1, h2, h]⟩

/-- C6: when `PWS_IP` is missing or empty, or `FETCH_INTERVAL` is missing, empty
or rejected by `strconv.Atoi`, `main` ends in `log.Fatalf` (exit status 1) and
this is its only effect: no fetch, no upload and no sleep happens, whatever the
station and the service would answer. -/
theorem main_fatal_at_startup (pf : ParseFloatFn) (env : Env) (cycles : List Cycle)
    (h : env "PWS_IP" = none ∨ env "PWS_IP" = some "" ∨
      env "FETCH_INTERVAL" = none ∨ env "FETCH_INTERVAL" = some "" ∨
      ∃ s, env "FETCH_INTERVAL" = some s ∧ Atoi s = none) :
    (∃ msg, main pf env cycles = [Event.fatal msg]) ∧
    (main pf env cycles).all (fun e => !e.isNetwork && !e.isSleep) = true := by
  have hbad : Getenv env "PWS_IP" = "" ∨ Atoi (Getenv env "FETCH_INTERVAL") = none := by
    rcases h with h | h | h | h | ⟨s, hs, ha⟩
    · exact Or.inl (Getenv_eq_empty env _ (Or.inl h))
    · exact Or.inl (Getenv_eq_empty env _ (Or.inr h))
    · right
      rw [Getenv_eq_empty env _ (Or.inl h)]
      rfl
    · right
      rw [Getenv_eq_empty env _ (Or.inr h)]
      rfl
    · right
      simp [Getenv, hs, ha]
  obtain ⟨msg, hmsg⟩ := startup_error_of_bad env hbad
  have hm : main pf env cycles = [Event.fatal msg] := by
    simp [main, hmsg]
  exact ⟨⟨msg, hm⟩, by rw [hm]; rfl⟩

/-- Scenario 4 of the specification: without `PWS_IP` the process ends at once,
also when the station would answer. -/
theorem main_fatal_at_startup_witness :
    noIpEnv "PWS_IP" = none ∧
    main scenarioParseFloat noIpEnv [goodCycle, goodCycle] =
      [Event.fatal "PWS_IP env var undefined"] ∧
    (main scenarioParseFloat noIpEnv [goodCycle, goodCycle]).all
      (fun e => !e.isNetwork && !e.isSleep) = true :=
  ⟨rfl, by decide,
    (main_fatal_at_startup scenarioParseFloat noIpEnv [goodCycle, goodCycle]
      (Or.inl rfl)).2⟩

/-- C7 fails as stated: `main` accepts an environment whose interval is 0 and
that sets neither the username nor the password, and goes on to fetch. -/
theorem startup_accepts_counterexample :
    startup bareEnv = .ok { pwsIp := "192.168.1.10", fetchInterval := 0, debugEnabled := false } ∧
    bareEnv "USERNAME" = none ∧ bareEnv "PASSWORD" = none ∧
    main scenarioParseFloat bareEnv [refusedCycle] =
      [ Event.httpGet "http://192.168.1.10/livedata.htm",
        Event.log (.failedToConnect "connection refused"),
        Event.sleep 0 ] := by
  refine ⟨rfl, rfl, rfl, ?_⟩
  decide

/-- C7, as amended: `main` accepts an environment exactly when `PWS_IP` is not
empty and `strconv.Atoi` parses `FETCH_INTERVAL` as an integer, which may be
zero or negative; the globals are then these two values and the debug flag.
The username and the password are not looked at. A missing or empty `PWS_IP`
and a missing, empty or unparsable `FETCH_INTERVAL` end the process at startup. -/
theorem startup_accepts_iff (env : Env) :
    (∀ g : Globals, startup env = .ok g ↔
      (Getenv env "PWS_IP" ≠ "" ∧ g.pwsIp = Getenv env "PWS_IP" ∧
        Atoi (Getenv env "FETCH_INTERVAL") = some g.fetchInterval ∧
        g.debugEnabled = (Getenv env "DEBUG_ENABLED" != ""))) ∧
    (Getenv env "PWS_IP" = "" ∨ Atoi (Getenv env "FETCH_INTERVAL") = none →
      ∃ msg, startup env = .error msg) ∧
    (∀ (env2 : Env), env2 "PWS_IP" = env "PWS_IP" →
      env2 "FETCH_INTERVAL" = env "FETCH_INTERVAL" →
      env2 "DEBUG_ENABLED" = env "DEBUG_ENABLED" → startup env2 = startup env) := by
  refine ⟨?_, startup_error_of_bad env, ?_⟩
  · intro g
    have hA : Atoi "" = none := rfl
    constructor
    · intro h
      unfold startup at h
      by_cases h1 : Getenv env "PWS_IP" = ""
      · simp [h1] at h
      · by_cases h2 : Getenv env "FETCH_INTERVAL" = ""
        · simp [h1, h2] at h
        · cases h3 : Atoi (Getenv env "FETCH_INTERVAL") with
          | none => simp [h1, h2, h3] at h
          | some n =>
            simp only [h1, h2, h3, if_false] at h
            injection h with h
            subst h
            exact ⟨h1, rfl, rfl, rfl⟩
    · rintro ⟨h1, hp, ha, hd⟩
      have h2 : Getenv env "FETCH_INTERVAL" ≠ "" := by
        intro h2
        rw [h2, hA] at ha
        exact absurd ha (by simp)
      unfold startup
      simp only [h1, h2, ha, if_false]
      cases g
      simp_all
  · intro env2 e1 e2 e3
    simp only [startup, Getenv, e1, e2, e3]

/-- An environment with address, interval 60 and credentials is accepted. -/
theorem startup_accepts_iff_witness :
    Getenv fullEnv "PWS_IP" ≠ "" ∧ Atoi (Getenv fullEnv "FETCH_INTERVAL") = some 60 ∧
    startup fullEnv = .ok { pwsIp := "192.168.1.10", fetchInterval := 60, debugEnabled := false } :=
  ⟨by decide, by decide,
    ((startup_accepts_iff fullEnv).1 ⟨"192.168.1.10", 60, false⟩).mpr
      ⟨by decide, by decide, by decide, by decide⟩⟩

theorem wrapInt64_seconds (x : Int) (h1 : -9223372036 ≤ x) (h2 : x ≤ 9223372036) :
    wrapInt64 (x * Second) = x * 1000000000 := by
  unfold wrapInt64 Second
  omega

theorem fetch_document_iff (g : Globals) (get : GetOutcome) (doc : Node) :
    (fetchDocumentFromPws g get).2 = some doc ↔ get = .document doc := by
  cases get <;> simp [fetchDocumentFromPws]

theorem iteration_posts (pf : ParseFloatFn) (g : Globals) (env : Env) (c : Cycle) :
    (iteration pf g env c).filter Event.isPost =
      match c.get with
      | .document doc =>
          [Event.httpPost
            ("https://pro.idokep.hu/sendws.php?" ++ constructUrl env c.now (parseHtml pf doc))
            "application/json"]
      | _ => [] := by
  cases hget : c.get <;> cases hd : g.debugEnabled <;> cases hp : c.post <;>
    simp [iteration, fetchDocumentFromPws, sendToidokep, hget, hd, hp, Event.isPost]

theorem iteration_sleeps (pf : ParseFloatFn) (g : Globals) (env : Env) (c : Cycle) :
    ∃ evs, iteration pf g env c = evs ++ [Event.sleep (wrapInt64 (g.fetchInterval * Second))] ∧
      evs.all (fun e => !e.isSleep) = true := by
  refine ⟨_, rfl, ?_⟩
  cases hget : c.get <;> cases hd : g.debugEnabled <;> cases hp : c.post <;>
    simp [fetchDocumentFromPws, sendToidokep, hget, hd, hp, Event.isSleep]

theorem iteration_gets (pf : ParseFloatFn) (g : Globals) (env : Env) (c : Cycle) :
    (iteration pf g env c).filter Event.isGet =
      [Event.httpGet ("http://" ++ g.pwsIp ++ "/livedata.htm")] := by
  cases hget : c.get <;> cases hd : g.debugEnabled <;> cases hp : c.post <;>
    simp [iteration, fetchDocumentFromPws, sendToidokep, hget, hd, hp, Event.isGet]

theorem loop_eq_flatten (pf : ParseFloatFn) (g : Globals) (env : Env) (cycles : List Cycle) :
    loop pf g env cycles = (cycles.map (iteration pf g env)).flatten := by
  induction cycles with
  | nil => rfl
  | cons c rest ih => simp [loop, ih]

theorem loop_sleep_count (pf : ParseFloatFn) (g : Globals) (env : Env) (cycles : List Cycle) :
    ((loop pf g env cycles).filter Event.isSleep).length = cycles.length := by
  induction cycles with
  | nil => rfl
  | cons c rest ih =>
    obtain ⟨evs, he, hall⟩ := iteration_sleeps pf g env c
    have hnone : evs.filter Event.isSleep = [] := by
      rw [List.filter_eq_nil_iff]
      intro e he2
      have := List.all_eq_true.mp hall e he2
      simpa using this
    simp [loop, List.filter_append, he, hnone, ih, Event.isSleep]

/-- C8 fails as stated: with `FETCH_INTERVAL=9223372037` the duration
`time.Duration(fetchInterval) * time.Second` exceeds the int64 range, and the
pass ends with `time.Sleep` of a negative duration, not of 9223372037 seconds. -/
theorem iteration_sleep_counterexample :
    startup longEnv =
      .ok { pwsIp := "192.168.1.10", fetchInterval := 9223372037, debugEnabled := false } ∧
    main scenarioParseFloat longEnv [refusedCycle] =
      [ Event.httpGet "http://192.168.1.10/livedata.htm",
        Event.log (.failedToConnect "connection refused"),
        Event.sleep (-9223372036709551616) ] ∧
    (-9223372036709551616 : Int) ≠ 9223372037 * 1000000000 := by
  refine ⟨rfl, ?_, by decide⟩
  decide

/-- C8, as amended: `fetchDocumentFromPws` returns a document exactly when the
station answered with one and `nil` after every failure; in every pass of the
loop the upload is performed exactly when the fetch returned a document, once
and with the query string of the reading parsed from that document (after a
failed fetch nothing is uploaded); the pass always ends with `time.Sleep`,
after a failed fetch, a failed upload or a success alike, for every interval,
and its argument is the int64 product of the interval and `time.Second`,
which is the configured interval in seconds when the interval lies between
-9223372036 and 9223372036; the loop runs every pass whatever the outcome of
the passes before it, with one fetch and one sleep each. Only the value of the
sleep argument depends on the bounds. -/
theorem iteration_steps (pf : ParseFloatFn) (g : Globals) (env : Env) :
    (∀ (get : GetOutcome) (doc : Node),
      (fetchDocumentFromPws g get).2 = some doc ↔ get = .document doc) ∧
    (∀ c : Cycle, (iteration pf g env c).filter Event.isPost =
      match c.get with
      | .document doc =>
          [Event.httpPost
            ("https://pro.idokep.hu/sendws.php?" ++ constructUrl env c.now (parseHtml pf doc))
            "application/json"]
      | _ => []) ∧
    (∀ c : Cycle, ∃ evs,
      iteration pf g env c = evs ++ [Event.sleep (wrapInt64 (g.fetchInterval * Second))] ∧
      evs.all (fun e => !e.isSleep) = true ∧
      (-9223372036 ≤ g.fetchInterval → g.fetchInterval ≤ 9223372036 →
        iteration pf g env c = evs ++ [Event.sleep (g.fetchInterval * 1000000000)])) ∧
    (∀ cycles : List Cycle,
      loop pf g env cycles = (cycles.map (iteration pf g env)).flatten ∧
      ((loop pf g env cycles).filter Event.isSleep).length = cycles.length ∧
      (loop pf g env cycles).filter Event.isGet =
        List.replicate cycles.length (Event.httpGet ("http://" ++ g.pwsIp ++ "/livedata.htm"))) := by
  refine ⟨fetch_document_iff g, iteration_posts pf g env, ?_, ?_⟩
  · intro c
    obtain ⟨evs, he, hall⟩ := iteration_sleeps pf g env c
    exact ⟨evs, he, hall, fun hlo hhi => by rw [he, wrapInt64_seconds _ hlo hhi]⟩
  · intro cycles
    refine ⟨loop_eq_flatten pf g env cycles, loop_sleep_count pf g env cycles, ?_⟩
    induction cycles with
    | nil => rfl
    | cons c rest ih =>
      simp [loop, List.filter_append, iteration_gets, ih, List.replicate_succ]

/-- Scenario 3 of the specification and two more passes, with interval 60: a
refused connection gives no upload and a sleep of 60 seconds; a failed upload
is followed by the sleep and by the next pass. With the interval 9223372037,
outside the bounds, the upload still follows the document and every pass
still ends with one sleep. -/
theorem iteration_steps_witness :
    (-9223372036 : Int) ≤ 60 ∧ (60 : Int) ≤ 9223372036 ∧
    (iteration scenarioParseFloat ⟨"192.168.1.10", 60, false⟩ fullEnv refusedCycle).filter
      Event.isPost = [] ∧
    (∃ evs, iteration scenarioParseFloat ⟨"192.168.1.10", 60, false⟩ fullEnv uploadFailsCycle =
      evs ++ [Event.sleep 60000000000] ∧ evs.all (fun e => !e.isSleep) = true) ∧
    loop scenarioParseFloat ⟨"192.168.1.10", 60, false⟩ fullEnv
        [refusedCycle, uploadFailsCycle, goodCycle] =
      [ Event.httpGet "http://192.168.1.10/livedata.htm",
        Event.log (.failedToConnect "connection refused"),
        Event.sleep 60000000000,
        Event.httpGet "http://192.168.1.10/livedata.htm",
        Event.httpPost "https://pro.idokep.hu/sendws.php?user=joe&pass=secret&ev=2024&ho=3&nap=9&ora=7&perc=5&mp=0&hom=21.5&rh=60&szelirany=0&szelero=0.0&szellokes=0.0&p=0.0&csap=0.00&csap1h=0.00&tipus=WH2600" "application/json",
        Event.log (.errorPosting "timeout"),
        Event.sleep 60000000000,
        Event.httpGet "http://192.168.1.10/livedata.htm",
        Event.httpPost "https://pro.idokep.hu/sendws.php?user=joe&pass=secret&ev=2024&ho=3&nap=9&ora=7&perc=5&mp=0&hom=21.5&rh=60&szelirany=0&szelero=0.0&szellokes=0.0&p=0.0&csap=0.00&csap1h=0.00&tipus=WH2600" "application/json",
        Event.sleep 60000000000 ] ∧
    (iteration scenarioParseFloat ⟨"192.168.1.10", 9223372037, false⟩ bareEnv
      refusedCycle).filter Event.isPost = [] ∧
    ((loop scenarioParseFloat ⟨"192.168.1.10", 9223372037, false⟩ bareEnv
      [refusedCycle, uploadFailsCycle, goodCycle]).filter Event.isSleep).length = 3 :=
  ⟨by decide, by decide,
    (iteration_steps scenarioParseFloat ⟨"192.168.1.10", 60, false⟩ fullEnv).2.1 refusedCycle,
    ((iteration_steps scenarioParseFloat ⟨"192.168.1.10", 60, false⟩ fullEnv).2.2.1
      uploadFailsCycle).elim
      (fun evs h => ⟨evs, h.2.2 (by decide) (by decide), h.2.1⟩),
    rfl,
    (iteration_steps scenarioParseFloat ⟨"192.168.1.10", 9223372037, false⟩ bareEnv).2.1
      refusedCycle,
    ((iteration_steps scenarioParseFloat ⟨"192.168.1.10", 9223372037, false⟩ bareEnv).2.2.2
      [refusedCycle, uploadFailsCycle, goodCycle]).2.1⟩

end Wh2600
